import Mathlib

/-!
Verification of the sbspk package (JPL Horizons small-body SPK kernel
retriever) against its natural-language specification.

The embedding models `sbspk._sbspk.talk` as a pure function over a channel
transcript: each `pexpect.expect` call consumes one channel event, which is
either a matched reply (the index of the matched pattern plus the "before"
and "after" text) or a timeout.  `sendline` calls are recorded in order in
an output list, so that "what was sent over the protocol" is observable.
`SBSPK.get` is modelled with the session function (`talk` or a stub) as an
explicit field, exactly as the Python class takes a `_talkfunc` argument;
the `urlretrieve` download collaborator is modelled as returning the
destination path it was given, which is what `get` uses of its result.
-/

/-- One channel event, consumed by one `expect` call: either a reply
(index of the matched pattern, the text before the match, the matched
text) or a timeout (`pexpect.TIMEOUT`). -/
inductive ChanEvent where
  | reply (idx : Nat) (before after : String)
  | timeout
deriving Repr, DecidableEq

/-- Errors that `talk` can raise: `pexpect.TIMEOUT` or `SBSPKError msg`. -/
inductive TalkErr where
  | timeout
  | sbspk (msg : String)
deriving Repr, DecidableEq

/-- ASCII whitespace, as stripped by Python `bytes.strip()`. -/
def pyIsSpace (c : Char) : Bool :=
  c == ' ' || c == '\t' || c == '\n' || c == '\r' || c == '\x0b' || c == '\x0c'

/-- Python `s.strip()`: remove ASCII whitespace from both ends. -/
def pyStrip (s : String) : String :=
  String.mk (((s.toList.dropWhile pyIsSpace).reverse.dropWhile pyIsSpace).reverse)

/-- The label preceding the object ID in the Horizons transcript, from the
regular expression `.*object ID: *(?P<OBJID>[0-9]*)` in `talk`. -/
def objIdLabel : List Char := "object ID:".toList

/-- Tail of the text after the LAST occurrence of `pat` (the greedy `.*` in
the regular expression commits to the rightmost occurrence of the label),
or `none` when `pat` does not occur. -/
def lastMatchTail (pat : List Char) : List Char → Option (List Char)
  | [] => none
  | c :: cs =>
    match lastMatchTail pat cs with
    | some t => some t
    | none =>
      if pat.isPrefixOf (c :: cs) then some (List.drop pat.length (c :: cs))
      else none

/-- The object-ID extraction of `talk`, embedding
`re.compile('.*object ID: *(?P<OBJID>[0-9]*)').match(str(th.before))`:
`none` when the label is absent (the match fails and `talk` raises
`SBSPKError`), otherwise the digits after the last label occurrence, after
skipping spaces; the captured digit string may be empty since the
regular expression uses `[0-9]*`. -/
def extractObjId (s : String) : Option String :=
  match lastMatchTail objIdLabel s.toList with
  | none => none
  | some t =>
    some (String.mk ((t.dropWhile (fun c => c == ' ')).takeWhile Char.isDigit))

/-- Consume one reply event from the channel; a `timeout` event or an
exhausted transcript means the `expect` call raised `pexpect.TIMEOUT`. -/
def nextReply : List ChanEvent → Option (Nat × String × String × List ChanEvent)
  | ChanEvent.reply i b a :: rest => some (i, b, a, rest)
  | _ => none

/-- Embedding of `sbspk._sbspk.talk`.  The result is the outcome
(`(FTPURL, OBJID)` or the raised error) paired with the list of lines sent
over the channel, in order.  Each `expect` call of the source consumes one
channel event; the interleaving of `sendline` and `expect` calls follows
the source exactly, including that on the "No matches found" branch and on
the object-ID parse failure nothing further is sent. -/
def talk (target email startdate stopdate : String) (timeout : Nat)
    (events : List ChanEvent) : Except TalkErr (String × String) × List String :=
  match nextReply events with
  | none => (Except.error TalkErr.timeout, [])
  | some (_, _, _, ev1) =>
  match nextReply ev1 with
  | none => (Except.error TalkErr.timeout, ["PAGE"])
  | some (_, _, _, ev2) =>
  match nextReply ev2 with
  | none => (Except.error TalkErr.timeout, ["PAGE", target])
  | some (_, _, _, ev3) =>
  match nextReply ev3 with
  | none => (Except.error TalkErr.timeout, ["PAGE", target, "yes"])
  | some (rtn, _, _, ev4) =>
  if rtn == 1 then
    (Except.error (TalkErr.sbspk ("No match found for " ++ target)),
     ["PAGE", target, "yes"])
  else
  match nextReply ev4 with
  | none => (Except.error TalkErr.timeout, ["PAGE", target, "yes", "s"])
  | some (_, before5, _, ev5) =>
  match extractObjId before5 with
  | none =>
    (Except.error (TalkErr.sbspk "Cannot parse object ID"),
     ["PAGE", target, "yes", "s"])
  | some objid =>
  match nextReply ev5 with
  | none => (Except.error TalkErr.timeout, ["PAGE", target, "yes", "s", email])
  | some (_, _, _, ev6) =>
  match nextReply ev6 with
  | none =>
    (Except.error TalkErr.timeout, ["PAGE", target, "yes", "s", email, "yes"])
  | some (_, _, _, ev7) =>
  match nextReply ev7 with
  | none =>
    (Except.error TalkErr.timeout,
     ["PAGE", target, "yes", "s", email, "yes", "NO"])
  | some (_, _, _, ev8) =>
  match nextReply ev8 with
  | none =>
    (Except.error TalkErr.timeout,
     ["PAGE", target, "yes", "s", email, "yes", "NO", startdate])
  | some (_, _, _, ev9) =>
  match nextReply ev9 with
  | none =>
    (Except.error TalkErr.timeout,
     ["PAGE", target, "yes", "s", email, "yes", "NO", startdate, stopdate])
  | some (_, _, _, ev10) =>
  match nextReply ev10 with
  | none =>
    (Except.error TalkErr.timeout,
     ["PAGE", target, "yes", "s", email, "yes", "NO", startdate, stopdate, "no"])
  | some (_, _, after11, _) =>
  (Except.ok (pyStrip after11, objid),
   ["PAGE", target, "yes", "s", email, "yes", "NO", startdate, stopdate, "no",
    "quit"])

/-- Python `s.replace(pat, rep)` on character lists: scan left to right,
replacing every non-overlapping occurrence of `pat`.  The `skip` counter
carries the pattern characters still to be consumed after a match, which
keeps the recursion structural.  The empty-pattern case never arises at
a call site of the source (the patterns are the literals `"<OBJID>"`,
`"<TARGET>"` and `" "`). -/
def pyRepAux (pat rep : List Char) : Nat → List Char → List Char
  | _, [] => []
  | Nat.succ k, _ :: cs => pyRepAux pat rep k cs
  | 0, c :: cs =>
    if !pat.isEmpty && pat.isPrefixOf (c :: cs) then
      rep ++ pyRepAux pat rep (pat.length - 1) cs
    else
      c :: pyRepAux pat rep 0 cs

/-- Python `s.replace(pat, rep)` on strings. -/
def pyReplace (s pat rep : String) : String :=
  String.mk (pyRepAux pat.toList rep.toList 0 s.toList)

/-- The filename substitution of `SBSPK.__get_one`:
`fileformat.replace("<OBJID>", objid).replace("<TARGET>", target.replace(' ', '_'))`,
applied to the already-stripped target. -/
def substFilename (fileformat objid target : String) : String :=
  pyReplace (pyReplace fileformat "<OBJID>" objid) "<TARGET>"
    (pyReplace target " " "_")

/-- Python `os.path.join(a, b)` for the two-argument case. -/
def pyPathJoin (a b : String) : String :=
  if b.toList.head? == some '/' then b
  else if a.toList.isEmpty || a.toList.getLast? == some '/' then a ++ b
  else a ++ "/" ++ b

/-- The `SBSPK` class: its user-accessible configuration attributes with
their defaults, and the `_talkfunc` session function supplied to
`__init__` (defaulting in the source to `talk`, here an explicit field so
that stub sessions can be modelled, as the class itself supports). -/
structure SBSPK where
  talkfunc : String → String → String → String → Nat →
    Except TalkErr (String × String)
  email : String := "sorry@noemail.org"
  startdate : String := "2010-01-01"
  stopdate : String := "2040-01-01"
  timeout : Nat := 5
  fileformat : String := "<OBJID>_<TARGET>.bsp"

/-- One call of `self._talk_to_horizon_func(target, self.email,
self.startdate, self.stopdate, self.timeout)`. -/
def runSession (cfg : SBSPK) (t : String) : Except TalkErr (String × String) :=
  cfg.talkfunc t cfg.email cfg.startdate cfg.stopdate cfg.timeout

/-- Embedding of `SBSPK.__get_one`: strip the target, run the session
function on the stripped target; on success build the filename from the
template and return `(filepath, objid)`; any session error propagates
unmodified (the source re-raises `pexpect.TIMEOUT` after logging and lets
`SBSPKError` propagate).  The second component records the target string
handed to the session function, making the protocol input observable.
The `urlretrieve` collaborator returns the destination path it is given,
which is the only part of its result `__get_one` uses. -/
def getOne (cfg : SBSPK) (target directory : String) :
    Except TalkErr (String × String) × List String :=
  let t := pyStrip target
  match runSession cfg t with
  | Except.error e => (Except.error e, [t])
  | Except.ok p =>
    (Except.ok (pyPathJoin directory (substFilename cfg.fileformat p.2 t), p.2),
     [t])

/-- The per-target loop of `SBSPK.get`: results are accumulated in input
order; an exception aborts the loop, discards the accumulated results and
propagates.  The second component is the concatenated session trace. -/
def getList (cfg : SBSPK) (directory : String) :
    List String → Except TalkErr (List (String × String)) × List String
  | [] => (Except.ok [], [])
  | t :: ts =>
    match getOne cfg t directory with
    | (Except.error e, tr) => (Except.error e, tr)
    | (Except.ok r, tr) =>
      match getList cfg directory ts with
      | (Except.error e, tr2) => (Except.error e, tr ++ tr2)
      | (Except.ok rs, tr2) => (Except.ok (r :: rs), tr ++ tr2)

/-- The argument of `SBSPK.get`: a single string or a list of strings
(the source tests `isinstance(target, str)`). -/
inductive TargetArg where
  | one (s : String)
  | many (l : List String)

/-- Embedding of `SBSPK.get`, also exposing the session trace (the list
of target strings handed to the session function, in order). -/
def getT (cfg : SBSPK) (target : TargetArg) (directory : String) :
    Except TalkErr (List (String × String)) × List String :=
  match target with
  | TargetArg.one s => getList cfg directory [s]
  | TargetArg.many l => getList cfg directory l

/-- Embedding of `SBSPK.get`: the value returned to the caller. -/
def SBSPK.get (cfg : SBSPK) (target : TargetArg) (directory : String) :
    Except TalkErr (List (String × String)) :=
  (getT cfg target directory).1

/-- Project the success value out of a session result (only used under a
hypothesis that the session succeeded). -/
def okPair : Except TalkErr (String × String) → String × String
  | Except.ok p => p
  | Except.error _ => ("", "")

/-- The `(filepath, objid)` pair `get` produces for one target whose
session succeeds. -/
def sessionPair (cfg : SBSPK) (directory target : String) : String × String :=
  let t := pyStrip target
  let p := okPair (runSession cfg t)
  (pyPathJoin directory (substFilename cfg.fileformat p.2 t), p.2)

/-- An all-success stub session function, as in the spec's testable
properties: it ignores its arguments and reports a fixed locator and
object ID. -/
def stubTalk (url objid : String) :
    String → String → String → String → Nat → Except TalkErr (String × String) :=
  fun _ _ _ _ _ => Except.ok (url, objid)

/-- An `SBSPK` instance over the all-success stub, with all attributes at
their class defaults. -/
def stubCfg : SBSPK := { talkfunc := stubTalk "ftp://host/file.bsp" "3054374" }

theorem extractObjId_digits {s o : String} (h : extractObjId s = some o) :
    ∀ c ∈ o.toList, c.isDigit := by
  unfold extractObjId at h
  cases hl : lastMatchTail objIdLabel s.toList with
  | none => rw [hl] at h; exact absurd h (by simp)
  | some t =>
    rw [hl] at h
    simp only [Option.some.injEq] at h
    subst h
    intro c hc
    exact List.mem_takeWhile_imp hc

/-- C1: a channel that presents every expected prompt in the documented
order (Horizons prompt, paging-off confirmation, continue prompt,
kernel-type selector, email prompt with an object-ID label in the
preceding transcript, email confirmation, transfer-format prompt,
start-date prompt, stop-date prompt, add-more-objects prompt, ftp URL
line) makes `talk` return successfully with the matched URL text stripped
of surrounding whitespace and line terminators as locator, and the digit
string captured after the object-ID label as objectId. -/
theorem talk_success_returns_locator_and_objid
    (target email startdate stopdate : String) (timeout : Nat)
    (b1 a1 b2 a2 b3 a3 b4 a4 b5 a5 b6 a6 b7 a7 b8 a8 b9 a9 b10 a10 b11 a11 :
      String)
    (rest : List ChanEvent) (objid : String)
    (h : extractObjId b5 = some objid) :
    talk target email startdate stopdate timeout
      (ChanEvent.reply 0 b1 a1 :: ChanEvent.reply 0 b2 a2 ::
       ChanEvent.reply 0 b3 a3 :: ChanEvent.reply 0 b4 a4 ::
       ChanEvent.reply 0 b5 a5 :: ChanEvent.reply 0 b6 a6 ::
       ChanEvent.reply 0 b7 a7 :: ChanEvent.reply 0 b8 a8 ::
       ChanEvent.reply 0 b9 a9 :: ChanEvent.reply 0 b10 a10 ::
       ChanEvent.reply 0 b11 a11 :: rest)
    = (Except.ok (pyStrip a11, objid),
       ["PAGE", target, "yes", "s", email, "yes", "NO", startdate, stopdate,
        "no", "quit"]) := by
  simp [talk, nextReply, h]

theorem talk_success_returns_locator_and_objid_witness :
    talk "2000 SG344" "sorry@noemail.org" "2010-01-01" "2040-01-01" 5
      [ChanEvent.reply 0 "Horizons system" "Horizons>",
       ChanEvent.reply 0 "" "PAGING toggled OFF",
       ChanEvent.reply 0 "" "Continue",
       ChanEvent.reply 0 "" "[S]PK",
       ChanEvent.reply 0 "Small-body object ID: 3054374 (2000 SG344)"
         "Enter your Internet e-mail address",
       ChanEvent.reply 0 "" "Confirm e-mail address",
       ChanEvent.reply 0 "" "SPK text transfer format",
       ChanEvent.reply 0 "" "SPK object START",
       ChanEvent.reply 0 "" "SPK object STOP",
       ChanEvent.reply 0 "" "Add more objects to file",
       ChanEvent.reply 0 "" "ftp://ssd.jpl.nasa.gov/pub/x.bsp\r\n"]
    = (Except.ok ("ftp://ssd.jpl.nasa.gov/pub/x.bsp", "3054374"),
       ["PAGE", "2000 SG344", "yes", "s", "sorry@noemail.org", "yes", "NO",
        "2010-01-01", "2040-01-01", "no", "quit"]) :=
  talk_success_returns_locator_and_objid "2000 SG344" "sorry@noemail.org"
    "2010-01-01" "2040-01-01" 5 "Horizons system" "Horizons>"
    "" "PAGING toggled OFF" "" "Continue" "" "[S]PK"
    "Small-body object ID: 3054374 (2000 SG344)"
    "Enter your Internet e-mail address" "" "Confirm e-mail address"
    "" "SPK text transfer format" "" "SPK object START" "" "SPK object STOP"
    "" "Add more objects to file" "" "ftp://ssd.jpl.nasa.gov/pub/x.bsp\r\n"
    [] "3054374" rfl

/-- C4: when the kernel-type-selector step instead matches the
"No matches found" text (pattern index 1), `talk` fails with the
`SBSPKError` naming the target, and the lines sent over the channel stop
at the affirmative answer to the continue prompt: no further protocol
input is sent after the failure. -/
theorem talk_no_match_aborts
    (target email startdate stopdate : String) (timeout : Nat)
    (b1 a1 b2 a2 b3 a3 b4 a4 : String) (rest : List ChanEvent) :
    talk target email startdate stopdate timeout
      (ChanEvent.reply 0 b1 a1 :: ChanEvent.reply 0 b2 a2 ::
       ChanEvent.reply 0 b3 a3 :: ChanEvent.reply 1 b4 a4 :: rest)
    = (Except.error (TalkErr.sbspk ("No match found for " ++ target)),
       ["PAGE", target, "yes"]) := by
  simp [talk, nextReply]

/-- C5 counterexample: the email prompt is reached and the preceding
transcript "object ID: unavailable" contains the label but no digits, so
no decimal-digit object identifier can be captured; yet `talk` returns
success (with the empty capture of `[0-9]*` as objectId) instead of
failing with the parse error. -/
theorem talk_label_without_digits_succeeds_cex :
    talk "Ceres" "a@b.c" "2010-01-01" "2040-01-01" 5
      [ChanEvent.reply 0 "" "", ChanEvent.reply 0 "" "",
       ChanEvent.reply 0 "" "", ChanEvent.reply 0 "" "",
       ChanEvent.reply 0 "object ID: unavailable" "",
       ChanEvent.reply 0 "" "", ChanEvent.reply 0 "" "",
       ChanEvent.reply 0 "" "", ChanEvent.reply 0 "" "",
       ChanEvent.reply 0 "" "",
       ChanEvent.reply 0 "" "ftp://example.org/a.bsp\r\n"]
    = (Except.ok ("ftp://example.org/a.bsp", ""),
       ["PAGE", "Ceres", "yes", "s", "a@b.c", "yes", "NO", "2010-01-01",
        "2040-01-01", "no", "quit"]) := rfl

/-- C5 (amended): `talk` fails with the parse error exactly when the
object-ID label is absent from the transcript preceding the email prompt
(the capture pattern fails to match); when the label is present, the
possibly empty digit capture is accepted and the session continues.  Here
the failing direction: if the capture pattern does not match the
transcript before the email prompt, `talk` raises
`SBSPKError("Cannot parse object ID")` and sends nothing further. -/
theorem talk_parse_error_when_label_absent
    (target email startdate stopdate : String) (timeout : Nat)
    (b1 a1 b2 a2 b3 a3 b4 a4 b5 a5 : String) (rest : List ChanEvent)
    (h : extractObjId b5 = none) :
    talk target email startdate stopdate timeout
      (ChanEvent.reply 0 b1 a1 :: ChanEvent.reply 0 b2 a2 ::
       ChanEvent.reply 0 b3 a3 :: ChanEvent.reply 0 b4 a4 ::
       ChanEvent.reply 0 b5 a5 :: rest)
    = (Except.error (TalkErr.sbspk "Cannot parse object ID"),
       ["PAGE", target, "yes", "s"]) := by
  simp [talk, nextReply, h]

theorem talk_parse_error_when_label_absent_witness :
    talk "Ceres" "a@b.c" "2010-01-01" "2040-01-01" 5
      [ChanEvent.reply 0 "" "", ChanEvent.reply 0 "" "",
       ChanEvent.reply 0 "" "", ChanEvent.reply 0 "" "",
       ChanEvent.reply 0 "matched 1 small body" ""]
    = (Except.error (TalkErr.sbspk "Cannot parse object ID"),
       ["PAGE", "Ceres", "yes", "s"]) :=
  talk_parse_error_when_label_absent "Ceres" "a@b.c" "2010-01-01"
    "2040-01-01" 5 "" "" "" "" "" "" "" "" "matched 1 small body" "" [] rfl

/-- C6 counterexample: a successful `talk` run whose objectId component is
the empty string, refuting the non-emptiness part of the invariant (the
capture pattern `[0-9]*` accepts zero digits). -/
theorem talk_success_empty_objid_cex :
    talk "Vesta" "x@y.z" "2016-01-01" "2018-06-01" 5
      [ChanEvent.reply 0 "" "", ChanEvent.reply 0 "" "",
       ChanEvent.reply 0 "" "", ChanEvent.reply 0 "" "",
       ChanEvent.reply 0 "object ID: " "",
       ChanEvent.reply 0 "" "", ChanEvent.reply 0 "" "",
       ChanEvent.reply 0 "" "", ChanEvent.reply 0 "" "",
       ChanEvent.reply 0 "" "",
       ChanEvent.reply 0 "" "ftp://host/v.bsp\r\n"]
    = (Except.ok ("ftp://host/v.bsp", ""),
       ["PAGE", "Vesta", "yes", "s", "x@y.z", "yes", "NO", "2016-01-01",
        "2018-06-01", "no", "quit"]) := rfl

/-- C6 (amended): whenever `talk` returns successfully, every character of
the objectId component is a decimal digit; the string may however be
empty, since the capture pattern `[0-9]*` accepts zero digits. -/
theorem talk_objid_all_digits
    (target email startdate stopdate : String) (timeout : Nat)
    (events : List ChanEvent) (loc oid : String) (sent : List String)
    (h : talk target email startdate stopdate timeout events
      = (Except.ok (loc, oid), sent)) :
    ∀ c ∈ oid.toList, c.isDigit := by
  unfold talk at h
  iterate 14 (all_goals try split at h)
  all_goals simp at h
  obtain ⟨⟨hloc, hoid⟩, hsent⟩ := h
  subst hoid
  apply extractObjId_digits
  assumption

theorem talk_objid_all_digits_witness :
    talk "Eros" "a@b.c" "2010-01-01" "2040-01-01" 5
      [ChanEvent.reply 0 "" "", ChanEvent.reply 0 "" "",
       ChanEvent.reply 0 "" "", ChanEvent.reply 0 "" "",
       ChanEvent.reply 0 "object ID: 123" "",
       ChanEvent.reply 0 "" "", ChanEvent.reply 0 "" "",
       ChanEvent.reply 0 "" "", ChanEvent.reply 0 "" "",
       ChanEvent.reply 0 "" "",
       ChanEvent.reply 0 "" "ftp://host/e.bsp\r\n"]
      = (Except.ok ("ftp://host/e.bsp", "123"),
         ["PAGE", "Eros", "yes", "s", "a@b.c", "yes", "NO", "2010-01-01",
          "2040-01-01", "no", "quit"]) ∧
    ('1' : Char).isDigit :=
  ⟨rfl,
   talk_objid_all_digits "Eros" "a@b.c" "2010-01-01" "2040-01-01" 5
     [ChanEvent.reply 0 "" "", ChanEvent.reply 0 "" "",
      ChanEvent.reply 0 "" "", ChanEvent.reply 0 "" "",
      ChanEvent.reply 0 "object ID: 123" "",
      ChanEvent.reply 0 "" "", ChanEvent.reply 0 "" "",
      ChanEvent.reply 0 "" "", ChanEvent.reply 0 "" "",
      ChanEvent.reply 0 "" "",
      ChanEvent.reply 0 "" "ftp://host/e.bsp\r\n"]
     "ftp://host/e.bsp" "123"
     ["PAGE", "Eros", "yes", "s", "a@b.c", "yes", "NO", "2010-01-01",
      "2040-01-01", "no", "quit"] rfl '1' (by decide)⟩

theorem digit_ne_lt {c : Char} (h : c.isDigit) : c ≠ '<' := by
  intro he
  subst he
  simp [Char.isDigit] at h

theorem toList_mk (l : List Char) : (String.mk l).toList = l := rfl

theorem pyRepAux_append_no_lt (p rep a t : List Char)
    (ha : ∀ c ∈ a, c ≠ '<') :
    pyRepAux ('<' :: p) rep 0 (a ++ t) = a ++ pyRepAux ('<' :: p) rep 0 t := by
  induction a with
  | nil => rfl
  | cons c a ih =>
    have hc : c ≠ '<' := ha c (by simp)
    have hbeq : ('<' == c) = false := beq_eq_false_iff_ne.mpr (fun he => hc he.symm)
    have ih2 := ih (fun x hx => ha x (by simp [hx]))
    simp [pyRepAux, List.isPrefixOf, hbeq, ih2]

theorem pyRepAux_id_no_lt (p rep s : List Char) (hs : ∀ c ∈ s, c ≠ '<') :
    pyRepAux ('<' :: p) rep 0 s = s := by
  have h := pyRepAux_append_no_lt p rep s [] hs
  simpa [pyRepAux] using h

theorem pyRepAux_mem (pat rep : List Char) (s : List Char) :
    ∀ k, ∀ c ∈ pyRepAux pat rep k s, c ∈ s ∨ c ∈ rep := by
  induction s with
  | nil =>
    intro k c hc
    simp [pyRepAux] at hc
  | cons d s ih =>
    intro k c hc
    match k with
    | Nat.succ k2 =>
      simp only [pyRepAux] at hc
      rcases ih k2 c hc with h | h
      · exact Or.inl (List.mem_cons_of_mem d h)
      · exact Or.inr h
    | 0 =>
      simp only [pyRepAux] at hc
      by_cases hcond : (!pat.isEmpty && pat.isPrefixOf (d :: s)) = true
      · rw [if_pos hcond] at hc
        rcases List.mem_append.mp hc with h | h
        · exact Or.inr h
        · rcases ih (pat.length - 1) c h with h2 | h2
          · exact Or.inl (List.mem_cons_of_mem d h2)
          · exact Or.inr h2
      · rw [if_neg hcond] at hc
        rcases List.mem_cons.mp hc with h | h
        · exact Or.inl (by simp [h])
        · rcases ih 0 c h with h2 | h2
          · exact Or.inl (List.mem_cons_of_mem d h2)
          · exact Or.inr h2

theorem pyRepObjid (o : List Char) :
    pyRepAux "<OBJID>".toList o 0 "<OBJID>_<TARGET>.bsp".toList
      = o ++ "_<TARGET>.bsp".toList := rfl

theorem pyRepTarget (r : List Char) :
    pyRepAux "<TARGET>".toList r 0 "_<TARGET>.bsp".toList
      = '_' :: (r ++ ".bsp".toList) := rfl

theorem pyRepTargetSplit (r o : List Char) (ho : ∀ c ∈ o, c ≠ '<') :
    pyRepAux "<TARGET>".toList r 0 (o ++ "_<TARGET>.bsp".toList)
      = o ++ '_' :: (r ++ ".bsp".toList) := by
  have h := pyRepAux_append_no_lt ("TARGET>".toList) r o ("_<TARGET>.bsp".toList) ho
  have e : ('<' :: "TARGET>".toList) = "<TARGET>".toList := rfl
  rw [e] at h
  rw [h, pyRepTarget]

theorem substFilename_default_eq (objid target : String)
    (ho : ∀ c ∈ objid.toList, c ≠ '<') :
    substFilename "<OBJID>_<TARGET>.bsp" objid target
      = String.mk (objid.toList ++ '_' ::
          ((pyReplace target " " "_").toList ++ ".bsp".toList)) := by
  have step : pyRepAux "<TARGET>".toList (pyReplace target " " "_").toList 0
      (objid.toList ++ "_<TARGET>.bsp".toList)
      = objid.toList ++ '_' ::
          ((pyReplace target " " "_").toList ++ ".bsp".toList) :=
    pyRepTargetSplit _ _ ho
  calc substFilename "<OBJID>_<TARGET>.bsp" objid target
      = String.mk (pyRepAux "<TARGET>".toList (pyReplace target " " "_").toList 0
          (objid.toList ++ "_<TARGET>.bsp".toList)) := rfl
    _ = _ := congrArg String.mk step

theorem substFilename_default_2000SG344 (objid : String)
    (ho : ∀ c ∈ objid.toList, c ≠ '<') :
    substFilename "<OBJID>_<TARGET>.bsp" objid "2000 SG344"
      = objid ++ "_2000_SG344.bsp" :=
  (substFilename_default_eq objid "2000 SG344" ho).trans rfl

theorem pyReplace_id_no_lt (s rep : String) (p : List Char)
    (hs : ∀ c ∈ s.toList, c ≠ '<') :
    pyReplace s (String.mk ('<' :: p)) rep = s := by
  have h := pyRepAux_id_no_lt p rep.toList s.toList hs
  calc pyReplace s (String.mk ('<' :: p)) rep
      = String.mk (pyRepAux ('<' :: p) rep.toList 0 s.toList) := rfl
    _ = String.mk s.toList := congrArg String.mk h
    _ = s := rfl

theorem pyReplace_underscore_no_lt (target : String)
    (ht : ∀ c ∈ target.toList, c ≠ '<') :
    ∀ c ∈ (pyReplace target " " "_").toList, c ≠ '<' := by
  intro c hc
  have hc2 : c ∈ pyRepAux " ".toList "_".toList 0 target.toList := hc
  rcases pyRepAux_mem (" ".toList) ("_".toList) target.toList 0 c hc2 with h | h
  · exact ht c h
  · have he : c = '_' := by simpa using h
    subst he
    decide

theorem substFilename_result_no_lt (objid target : String)
    (ho : ∀ c ∈ objid.toList, c ≠ '<')
    (ht : ∀ c ∈ target.toList, c ≠ '<') :
    ∀ c ∈ (substFilename "<OBJID>_<TARGET>.bsp" objid target).toList, c ≠ '<' := by
  rw [substFilename_default_eq objid target ho]
  intro c hc
  have hc2 : c ∈ objid.toList ++ '_' ::
      ((pyReplace target " " "_").toList ++ ".bsp".toList) := hc
  simp only [List.mem_append, List.mem_cons] at hc2
  rcases hc2 with h | h | h | h
  · exact ho c h
  · subst h; decide
  · exact pyReplace_underscore_no_lt target ht c h
  · revert h
    have : ∀ x ∈ ".bsp".toList, x ≠ '<' := by decide
    exact this c

theorem substFilename_default_idem (objid target : String)
    (ho : ∀ c ∈ objid.toList, c ≠ '<')
    (ht : ∀ c ∈ target.toList, c ≠ '<') :
    substFilename (substFilename "<OBJID>_<TARGET>.bsp" objid target)
      objid target
      = substFilename "<OBJID>_<TARGET>.bsp" objid target := by
  have hR := substFilename_result_no_lt objid target ho ht
  have h1 : pyReplace (substFilename "<OBJID>_<TARGET>.bsp" objid target)
      "<OBJID>" objid = substFilename "<OBJID>_<TARGET>.bsp" objid target :=
    pyReplace_id_no_lt _ _ ("OBJID>".toList) hR
  have h2 : pyReplace (substFilename "<OBJID>_<TARGET>.bsp" objid target)
      "<TARGET>" (pyReplace target " " "_")
      = substFilename "<OBJID>_<TARGET>.bsp" objid target :=
    pyReplace_id_no_lt _ _ ("TARGET>".toList) hR
  calc substFilename (substFilename "<OBJID>_<TARGET>.bsp" objid target)
        objid target
      = pyReplace (pyReplace (substFilename "<OBJID>_<TARGET>.bsp" objid target)
          "<OBJID>" objid) "<TARGET>" (pyReplace target " " "_") := rfl
    _ = pyReplace (substFilename "<OBJID>_<TARGET>.bsp" objid target)
          "<TARGET>" (pyReplace target " " "_") := by rw [h1]
    _ = substFilename "<OBJID>_<TARGET>.bsp" objid target := h2

/-- C7 counterexample: Python `str.replace` replaces every occurrence, not
exactly one (`substFilename "<OBJID><OBJID>" "7" "x" = "77"`), and the
substitution is not idempotent for every template, identifier and target:
with template `"<TARGET>"`, identifier `"1"` and target `"<OBJID>"` one
application yields `"<OBJID>"` while a second application yields `"1"`. -/
theorem substFilename_not_once_not_idem_cex :
    substFilename "<OBJID><OBJID>" "7" "x" = "77" ∧
    substFilename "<TARGET>" "1" "<OBJID>" = "<OBJID>" ∧
    substFilename (substFilename "<TARGET>" "1" "<OBJID>") "1" "<OBJID>"
      = "1" ∧
    substFilename "<TARGET>" "1" "<OBJID>" ≠ "1" :=
  ⟨rfl, rfl, rfl, by decide⟩

/-- C7 (amended): the filename substitution replaces every occurrence of
`<OBJID>` and then every occurrence of `<TARGET>` (Python `str.replace`
semantics).  For the default template, where each placeholder occurs
exactly once, with a digit-string object identifier and a target free of
the placeholder character, each placeholder is replaced exactly once —
the result is the identifier, an underscore, the space-normalized target
and the extension — and the substitution is idempotent. -/
theorem substFilename_default_faithful (objid target : String)
    (ho : ∀ c ∈ objid.toList, c.isDigit)
    (ht : ∀ c ∈ target.toList, c ≠ '<') :
    substFilename "<OBJID>_<TARGET>.bsp" objid target
      = objid ++ "_" ++ pyReplace target " " "_" ++ ".bsp" ∧
    substFilename (substFilename "<OBJID>_<TARGET>.bsp" objid target)
      objid target
      = substFilename "<OBJID>_<TARGET>.bsp" objid target := by
  have ho2 : ∀ c ∈ objid.toList, c ≠ '<' := fun c hc => digit_ne_lt (ho c hc)
  constructor
  · rw [substFilename_default_eq objid target ho2]
    calc String.mk (objid.toList ++ '_' ::
          ((pyReplace target " " "_").toList ++ ".bsp".toList))
        = String.mk (((objid.toList ++ ['_'])
            ++ (pyReplace target " " "_").toList) ++ ".bsp".toList) := by
          apply congrArg String.mk
          simp [List.append_assoc]
      _ = objid ++ "_" ++ pyReplace target " " "_" ++ ".bsp" := rfl
  · exact substFilename_default_idem objid target ho2 ht

theorem substFilename_default_faithful_witness :
    substFilename "<OBJID>_<TARGET>.bsp" "3054374" "2000 SG344"
      = "3054374_2000_SG344.bsp" ∧
    substFilename (substFilename "<OBJID>_<TARGET>.bsp" "3054374" "2000 SG344")
      "3054374" "2000 SG344"
      = substFilename "<OBJID>_<TARGET>.bsp" "3054374" "2000 SG344" :=
  substFilename_default_faithful "3054374" "2000 SG344" (by decide) (by decide)


theorem getList_all_ok (cfg : SBSPK) (d : String) (ts : List String)
    (h : ∀ t ∈ ts, ∃ p, runSession cfg (pyStrip t) = Except.ok p) :
    getList cfg d ts
      = (Except.ok (ts.map (sessionPair cfg d)), ts.map pyStrip) := by
  induction ts with
  | nil => rfl
  | cons t ts ih =>
    obtain ⟨p, hp⟩ := h t (by simp)
    have ih2 := ih (fun x hx => h x (by simp [hx]))
    simp [getList, getOne, sessionPair, okPair, hp, ih2]

/-- C2: when every per-target session succeeds, `get` returns one
`(filePath, objectId)` pair per target, in input order; in particular
`get (["2000 SG344"]) d` over a session yielding a digit object ID
`objid` returns exactly the pair whose path is `d` joined with
`objid ++ "_2000_SG344.bsp"` and whose identifier is `objid`. -/
theorem get_all_success_ordered :
    (∀ (cfg : SBSPK) (ts : List String) (d : String),
      (∀ t ∈ ts, ∃ p, runSession cfg (pyStrip t) = Except.ok p) →
      SBSPK.get cfg (TargetArg.many ts) d
        = Except.ok (ts.map (sessionPair cfg d))) ∧
    (∀ (cfg : SBSPK) (d url objid : String),
      cfg.fileformat = "<OBJID>_<TARGET>.bsp" →
      runSession cfg "2000 SG344" = Except.ok (url, objid) →
      (∀ c ∈ objid.toList, c.isDigit) →
      SBSPK.get cfg (TargetArg.many ["2000 SG344"]) d
        = Except.ok [(pyPathJoin d (objid ++ "_2000_SG344.bsp"), objid)]) := by
  constructor
  · intro cfg ts d h
    show (getList cfg d ts).1 = _
    rw [getList_all_ok cfg d ts h]
  · intro cfg d url objid hf hr hd
    have h1 : pyStrip "2000 SG344" = "2000 SG344" := rfl
    show (getList cfg d ["2000 SG344"]).1 = _
    rw [getList_all_ok cfg d ["2000 SG344"] ?side]
    case side =>
      intro t ht
      simp at ht
      subst ht
      rw [h1]
      exact ⟨(url, objid), hr⟩
    simp only [List.map_cons, List.map_nil, sessionPair, okPair, h1, hr, hf]
    rw [substFilename_default_2000SG344 objid
      (fun c hc => digit_ne_lt (hd c hc))]

theorem get_all_success_ordered_witness :
    SBSPK.get stubCfg (TargetArg.many ["2000 SG344"]) "/tmp"
      = Except.ok [("/tmp/3054374_2000_SG344.bsp", "3054374")] :=
  get_all_success_ordered.2 stubCfg "/tmp" "ftp://host/file.bsp" "3054374"
    rfl rfl (by decide)

theorem getList_failure (cfg : SBSPK) (d : String) (pre : List String)
    (t : String) (post : List String) (e : TalkErr)
    (hpre : ∀ t2 ∈ pre, ∃ p, runSession cfg (pyStrip t2) = Except.ok p)
    (ht : runSession cfg (pyStrip t) = Except.error e) :
    getList cfg d (pre ++ t :: post)
      = (Except.error e, (pre ++ [t]).map pyStrip) := by
  induction pre with
  | nil => simp [getList, getOne, ht]
  | cons q pre ih =>
    obtain ⟨p, hp⟩ := hpre q (by simp)
    have ih2 := ih (fun x hx => hpre x (by simp [hx]))
    simp only [List.cons_append, getList, getOne, hp, List.append_eq]
    rw [ih2]
    simp

/-- C3: if the session for some target fails, `get` propagates that same
failure unmodified, runs no session for any later target (the session
trace ends at the failing target), and returns no result list at all:
the pairs already computed for earlier successful targets are discarded
with the aborted loop. -/
theorem get_failure_propagates_and_aborts
    (cfg : SBSPK) (pre : List String) (t : String) (post : List String)
    (d : String) (e : TalkErr)
    (hpre : ∀ t2 ∈ pre, ∃ p, runSession cfg (pyStrip t2) = Except.ok p)
    (ht : runSession cfg (pyStrip t) = Except.error e) :
    getT cfg (TargetArg.many (pre ++ t :: post)) d
      = (Except.error e, (pre ++ [t]).map pyStrip) :=
  getList_failure cfg d pre t post e hpre ht

/-- A stub session function that fails on the target "B" and succeeds on
every other target, exercising the abort-on-failure path. -/
def stubFailB : SBSPK :=
  { talkfunc := fun t _ _ _ _ =>
      if t == "B" then Except.error (TalkErr.sbspk ("No match found for " ++ t))
      else Except.ok ("ftp://host/x.bsp", "1") }

theorem get_failure_propagates_and_aborts_witness :
    getT stubFailB (TargetArg.many ["A", "B", "C"]) "/tmp"
      = (Except.error (TalkErr.sbspk "No match found for B"), ["A", "B"]) :=
  get_failure_propagates_and_aborts stubFailB ["A"] "B" ["C"] "/tmp"
    (TalkErr.sbspk "No match found for B")
    (by
      intro t2 h2
      simp at h2
      subst h2
      exact ⟨("ftp://host/x.bsp", "1"), rfl⟩)
    rfl

/-- C8 counterexample: the string handed to the session function (and so
sent over the protocol as the target name) for the caller-supplied target
`" 2000 SG344 "` is the stripped `"2000 SG344"`, not the caller's string
verbatim: surrounding whitespace is removed before the session. -/
theorem get_strips_target_cex :
    (getT stubCfg (TargetArg.many [" 2000 SG344 "]) "/tmp").2
      = ["2000 SG344"] ∧
    " 2000 SG344 " ≠ "2000 SG344" :=
  ⟨rfl, by decide⟩

/-- C8 (amended): the string sent over the protocol as the target name is
the caller's target with surrounding whitespace stripped (interior
characters, spaces included, verbatim); the spaces-to-underscores
normalization is applied only to the copy of the stripped target used in
the output filename. -/
theorem get_protocol_input_is_stripped_target
    (cfg : SBSPK) (t d : String) :
    (getT cfg (TargetArg.many [t]) d).2 = [pyStrip t] ∧
    (∀ url objid,
      runSession cfg (pyStrip t) = Except.ok (url, objid) →
      SBSPK.get cfg (TargetArg.many [t]) d
        = Except.ok
            [(pyPathJoin d (substFilename cfg.fileformat objid (pyStrip t)),
              objid)]) := by
  constructor
  · show (getList cfg d [t]).2 = _
    cases hr : runSession cfg (pyStrip t) with
    | error e => simp [getList, getOne, hr]
    | ok p => simp [getList, getOne, hr]
  · intro url objid hr
    show (getList cfg d [t]).1 = _
    simp [getList, getOne, hr]

theorem get_protocol_input_is_stripped_target_witness :
    (getT stubCfg (TargetArg.many [" 2014 SU1 "]) "/tmp").2 = ["2014 SU1"] ∧
    SBSPK.get stubCfg (TargetArg.many [" 2014 SU1 "]) "/tmp"
      = Except.ok [("/tmp/3054374_2014_SU1.bsp", "3054374")] :=
  ⟨(get_protocol_input_is_stripped_target stubCfg " 2014 SU1 " "/tmp").1,
   (get_protocol_input_is_stripped_target stubCfg " 2014 SU1 " "/tmp").2
     "ftp://host/file.bsp" "3054374" rfl⟩

/-- C9: passing a single string target is the same as passing the
one-element list of it: the string is normalized into a one-element
sequence before per-target processing, with identical results and
identical session traces. -/
theorem get_single_equals_singleton_list (cfg : SBSPK) (s d : String) :
    getT cfg (TargetArg.one s) d = getT cfg (TargetArg.many [s]) d ∧
    SBSPK.get cfg (TargetArg.one s) d
      = SBSPK.get cfg (TargetArg.many [s]) d :=
  ⟨rfl, rfl⟩

/-- C10: on the empty target sequence, `get` returns the empty list and
runs no session at all (the session trace is empty; in this model no
channel is opened and no file is written since both happen only inside a
per-target session step). -/
theorem get_empty_list_no_sessions (cfg : SBSPK) (d : String) :
    getT cfg (TargetArg.many []) d = (Except.ok [], []) :=
  rfl
